import Mathlib

/-!
Shallow embedding of the quckapp repository's two services:
the file-record service (src/services/file-service/src/api.rs, models.rs) and
the message-record service (src/services/message-service/src/api/handlers.rs,
models/mod.rs).

Modelling conventions:
- BSON `ObjectId` is modelled as its 24-character lowercase/uppercase hex
  string; `ObjectId::parse_str` becomes `parseObjectId`.
- `DateTime<Utc>` timestamps are modelled as `Nat`; `Utc::now()` becomes an
  explicit `now : Nat` parameter of each mutating handler.
- A MongoDB collection is a `List` of documents in insertion order.
  `find_one(filter)` is `List.find?`; `update_one(filter, {$set ...})` is
  `updateOne` (updates the first matching document, like MongoDB's
  `update_one`); `find(filter, sort, limit)` is filter, then a stable sort by
  `created_at`, then `List.take limit`.
- The driver's fallibility is made explicit: each handler takes an
  `Option String` per database call it performs, `some e` meaning that call
  failed with driver error message `e`.  `list` handlers perform two calls
  (`find`, then `try_collect` on the cursor) and `list_files` a third
  (`count_documents`), hence two or three such parameters; the Rust code
  absorbs `try_collect` / `count_documents` failures with
  `unwrap_or_default()` / `unwrap_or(0)`, which the embedding reproduces.
- `f64` (`FileMetadata.duration`) is modelled as `Nat`; no operation in the
  repository reads or writes any metadata field.
-/

namespace QuckApp

/-- Embedding of `bson::oid::ObjectId::parse_str`: succeeds exactly on 24-character hex
strings; the embedding keeps the hex string itself as the id. -/
def isHexChar (c : Char) : Bool :=
  c.isDigit || (Char.ofNat 97 ≤ c && c ≤ Char.ofNat 102) ||
    (Char.ofNat 65 ≤ c && c ≤ Char.ofNat 70)

/-- Parse a path id the way every handler does before touching the database. -/
def parseObjectId (s : String) : Option String :=
  if s.length = 24 && s.data.all isHexChar then some s else none

/-- Generic HTTP outcome of a handler, keeping the status code and, for
errors, the message put in the `{"error": ...}` body. -/
inductive Resp (α : Type) where
  | success (status : Nat) (body : α)
  | badRequest
  | notFound (msg : String)
  | serverError (msg : String)
  deriving Repr, DecidableEq

/-- HTTP status code of a response. -/
def Resp.status : Resp α → Nat
  | .success s _ => s
  | .badRequest => 400
  | .notFound _ => 404
  | .serverError _ => 500

/-- Embedding of the `mongodb` driver's `update_one`: apply `f` to the first element satisfying `p`. -/
def updateOne (p : α → Bool) (f : α → α) : List α → List α
  | [] => []
  | x :: xs => if p x then f x :: xs else x :: updateOne p f xs

/-- Embedding of `$addToSet`: append the element unless an equal element is present. -/
def addToSet [BEq α] (xs : List α) (x : α) : List α :=
  if xs.contains x then xs else xs ++ [x]

/-! ## Message-service data model (models/mod.rs) -/

inductive MessageType where
  | text | image | video | audio | file | system | codeSnippet | poll
  deriving Repr, DecidableEq

structure Attachment where
  id : String
  file_type : String
  file_name : String
  file_size : Nat
  url : String
  thumbnail_url : Option String
  deriving Repr, DecidableEq

structure Reaction where
  emoji : String
  user_ids : List String
  count : Nat
  deriving Repr, DecidableEq

structure Message where
  id : Option String
  channel_id : String
  user_id : String
  content : String
  thread_id : Option String
  parent_message_id : Option String
  message_type : MessageType
  attachments : List Attachment
  mentions : List String
  reactions : List Reaction
  edited_at : Option Nat
  deleted_at : Option Nat
  is_pinned : Bool
  created_at : Nat
  updated_at : Nat
  deriving Repr, DecidableEq

structure UpdateMessageRequest where
  content : Option String
  deriving Repr, DecidableEq

structure AddReactionRequest where
  user_id : String
  emoji : String
  deriving Repr, DecidableEq

structure MessageQueryParams where
  channel_id : Option String
  user_id : Option String
  before : Option String
  after : Option String
  limit : Option Int
  deriving Repr, DecidableEq

structure MessagesResponse where
  messages : List Message
  has_more : Bool
  cursor : Option String
  deriving Repr, DecidableEq

/-! ## File-service data model (models.rs) -/

structure FileMetadata where
  width : Option Nat
  height : Option Nat
  duration : Option Nat
  pages : Option Nat
  deriving Repr, DecidableEq

structure File where
  id : Option String
  name : String
  original_name : String
  mime_type : String
  size : Nat
  storage_key : String
  url : String
  thumbnail_url : Option String
  workspace_id : String
  channel_id : Option String
  uploaded_by : String
  checksum : String
  metadata : FileMetadata
  is_public : Bool
  deleted_at : Option Nat
  created_at : Nat
  updated_at : Nat
  deriving Repr, DecidableEq

structure FileQueryParams where
  workspace_id : Option String
  channel_id : Option String
  uploaded_by : Option String
  mime_type : Option String
  limit : Option Int
  deriving Repr, DecidableEq

structure FileResponse where
  file : File
  download_url : String
  deriving Repr, DecidableEq

structure FilesResponse where
  files : List File
  total : Nat
  deriving Repr, DecidableEq

/-! ## Sorting by `created_at` (FindOptions sort) -/

/-- The `sort(created_at: -1)` order on messages. -/
def msgDesc (a b : Message) : Prop := b.created_at ≤ a.created_at

instance : DecidableRel msgDesc := fun _ _ => Nat.decLe _ _

instance : IsTotal Message msgDesc := ⟨fun a b => Nat.le_total b.created_at a.created_at⟩

instance : IsTrans Message msgDesc := ⟨fun _ _ _ hab hbc => Nat.le_trans hbc hab⟩

/-- The `sort(created_at: 1)` order on messages. -/
def msgAsc (a b : Message) : Prop := a.created_at ≤ b.created_at

instance : DecidableRel msgAsc := fun _ _ => Nat.decLe _ _

instance : IsTotal Message msgAsc := ⟨fun a b => Nat.le_total a.created_at b.created_at⟩

instance : IsTrans Message msgAsc := ⟨fun _ _ _ hab hbc => Nat.le_trans hab hbc⟩

/-- The `sort(created_at: -1)` order on files. -/
def fileDesc (a b : File) : Prop := b.created_at ≤ a.created_at

instance : DecidableRel fileDesc := fun _ _ => Nat.decLe _ _

instance : IsTotal File fileDesc := ⟨fun a b => Nat.le_total b.created_at a.created_at⟩

instance : IsTrans File fileDesc := ⟨fun _ _ _ hab hbc => Nat.le_trans hbc hab⟩

/-- Effective page size `query.limit.unwrap_or(50).min(100)` (limit is `i64` in both services). -/
def effectiveLimit (l : Option Int) : Int := min (l.getD 50) 100

/-! ## Message-service handlers (api/handlers.rs) -/

/-- Filter used by `get_message`'s `find_one`:
`{ "_id": object_id, "deleted_at": null }`. -/
def msgVisible (oid : String) (m : Message) : Bool :=
  m.id == some oid && m.deleted_at == none

/-- Handler for `GET /messages/:id` (handlers.rs `get_message`). -/
def get_message (store : List Message) (dbErr : Option String)
    (idStr : String) : Resp Message :=
  match parseObjectId idStr with
  | none => .badRequest
  | some oid =>
    match dbErr with
    | some e => .serverError e
    | none =>
      match store.find? (msgVisible oid) with
      | some m => .success 200 m
      | none => .notFound "Message not found"

/-- Filter built field-by-field by `list_messages`:
`{ "deleted_at": null }` plus optional `channel_id` / `user_id` equality. -/
def msgListFilter (q : MessageQueryParams) (m : Message) : Bool :=
  m.deleted_at == none
    && (match q.channel_id with | some c => m.channel_id == c | none => true)
    && (match q.user_id with | some u => m.user_id == u | none => true)

/-- Build the `MessagesResponse` from a collected page, as the three listing
handlers do: `has_more` iff the count equals the limit, `cursor` from the
last message's id. -/
def mkMessagesPage (limit : Int) (msgs : List Message) : MessagesResponse :=
  { messages := msgs,
    has_more := (msgs.length : Int) == limit,
    cursor := msgs.getLast?.bind (fun m => m.id) }

/-- Handler for `GET /messages` (handlers.rs `list_messages`).  `findErr` models the
`collection.find` call failing, `collectErr` the cursor's `try_collect`
failing — the latter is absorbed by `unwrap_or_default()`. -/
def list_messages (store : List Message) (findErr collectErr : Option String)
    (q : MessageQueryParams) : Resp MessagesResponse :=
  let limit := effectiveLimit q.limit
  match findErr with
  | some e => .serverError e
  | none =>
    let msgs : List Message :=
      match collectErr with
      | some _ => []
      | none =>
        (List.insertionSort msgDesc (store.filter (msgListFilter q))).take limit.toNat
    .success 200 (mkMessagesPage limit msgs)

/-- The `$set` document of `update_message`: always `updated_at` and
`edited_at` to now, plus `content` when the body supplies one. -/
def applyMsgUpdate (now : Nat) (content : Option String) (m : Message) : Message :=
  { m with updated_at := now, edited_at := some now,
           content := content.getD m.content }

/-- Handler for `PUT /messages/:id` (handlers.rs `update_message`); filter is
`{ "_id": object_id }` only. -/
def update_message (store : List Message) (dbErr : Option String) (now : Nat)
    (idStr : String) (body : UpdateMessageRequest) : Resp Unit × List Message :=
  match parseObjectId idStr with
  | none => (.badRequest, store)
  | some oid =>
    match dbErr with
    | some e => (.serverError e, store)
    | none =>
      (.success 200 (),
       updateOne (fun m => m.id == some oid) (applyMsgUpdate now body.content) store)

/-- The `$set` document of `delete_message` / `delete_file`:
only `deleted_at` to now. -/
def applyMsgDelete (now : Nat) (m : Message) : Message :=
  { m with deleted_at := some now }

/-- Handler for `DELETE /messages/:id` (handlers.rs `delete_message`); filter is
`{ "_id": object_id }` only, response 204 regardless of match count. -/
def delete_message (store : List Message) (dbErr : Option String) (now : Nat)
    (idStr : String) : Resp Unit × List Message :=
  match parseObjectId idStr with
  | none => (.badRequest, store)
  | some oid =>
    match dbErr with
    | some e => (.serverError e, store)
    | none =>
      (.success 204 (),
       updateOne (fun m => m.id == some oid) (applyMsgDelete now) store)

/-- The `$addToSet` document of `add_reaction`: the wholesale entry
`{emoji, user_ids: [user_id], count: 1}`. -/
def applyAddReaction (body : AddReactionRequest) (m : Message) : Message :=
  { m with
    reactions := addToSet m.reactions
      { emoji := body.emoji, user_ids := [body.user_id], count := 1 } }

/-- Handler for `POST /messages/:id/reactions` (handlers.rs `add_reaction`). -/
def add_reaction (store : List Message) (dbErr : Option String)
    (idStr : String) (body : AddReactionRequest) : Resp Unit × List Message :=
  match parseObjectId idStr with
  | none => (.badRequest, store)
  | some oid =>
    match dbErr with
    | some e => (.serverError e, store)
    | none =>
      (.success 200 (),
       updateOne (fun m => m.id == some oid) (applyAddReaction body) store)

/-- The `$pull` document of `remove_reaction`: drop every reactions entry
whose `emoji` equals the given one. -/
def applyRemoveReaction (emoji : String) (m : Message) : Message :=
  { m with reactions := m.reactions.filter (fun r => r.emoji != emoji) }

/-- Handler for `DELETE /messages/:id/reactions/:emoji` (handlers.rs
`remove_reaction`). -/
def remove_reaction (store : List Message) (dbErr : Option String)
    (idStr emoji : String) : Resp Unit × List Message :=
  match parseObjectId idStr with
  | none => (.badRequest, store)
  | some oid =>
    match dbErr with
    | some e => (.serverError e, store)
    | none =>
      (.success 204 (),
       updateOne (fun m => m.id == some oid) (applyRemoveReaction emoji) store)

/-- The `$set` document of `pin_message` / `unpin_message`:
only `is_pinned`. -/
def applyPin (b : Bool) (m : Message) : Message :=
  { m with is_pinned := b }

/-- Handler for `POST /messages/:id/pin` (handlers.rs `pin_message`). -/
def pin_message (store : List Message) (dbErr : Option String)
    (idStr : String) : Resp Unit × List Message :=
  match parseObjectId idStr with
  | none => (.badRequest, store)
  | some oid =>
    match dbErr with
    | some e => (.serverError e, store)
    | none =>
      (.success 200 (), updateOne (fun m => m.id == some oid) (applyPin true) store)

/-- Handler for `DELETE /messages/:id/pin` (handlers.rs `unpin_message`). -/
def unpin_message (store : List Message) (dbErr : Option String)
    (idStr : String) : Resp Unit × List Message :=
  match parseObjectId idStr with
  | none => (.badRequest, store)
  | some oid =>
    match dbErr with
    | some e => (.serverError e, store)
    | none =>
      (.success 200 (), updateOne (fun m => m.id == some oid) (applyPin false) store)

/-- Handler for `GET /channels/:channel_id/messages` (handlers.rs
`get_channel_messages`): filter
`{ "channel_id": channel_id, "deleted_at": null, "thread_id": null }`,
sorted `created_at: -1`. -/
def get_channel_messages (store : List Message)
    (findErr collectErr : Option String) (channelId : String)
    (q : MessageQueryParams) : Resp MessagesResponse :=
  let limit := effectiveLimit q.limit
  match findErr with
  | some e => .serverError e
  | none =>
    let msgs : List Message :=
      match collectErr with
      | some _ => []
      | none =>
        (List.insertionSort msgDesc (store.filter
          (fun m => m.channel_id == channelId && m.deleted_at == none
            && m.thread_id == none))).take limit.toNat
    .success 200 (mkMessagesPage limit msgs)

/-- Handler for `GET /threads/:thread_id/messages` (handlers.rs `get_thread_messages`):
filter `{ "thread_id": thread_id, "deleted_at": null }`, sorted
`created_at: 1`, cursor hard-coded to `None`. -/
def get_thread_messages (store : List Message)
    (findErr collectErr : Option String) (threadId : String)
    (q : MessageQueryParams) : Resp MessagesResponse :=
  let limit := effectiveLimit q.limit
  match findErr with
  | some e => .serverError e
  | none =>
    let msgs : List Message :=
      match collectErr with
      | some _ => []
      | none =>
        (List.insertionSort msgAsc (store.filter
          (fun m => m.thread_id == some threadId && m.deleted_at == none))).take
          limit.toNat
    .success 200 { messages := msgs,
                   has_more := (msgs.length : Int) == limit,
                   cursor := none }

/-! ## File-service handlers (api.rs) -/

/-- Filter used by `get_file`'s `find_one`:
`{ "_id": object_id, "deleted_at": null }`. -/
def fileVisible (oid : String) (f : File) : Bool :=
  f.id == some oid && f.deleted_at == none

/-- Handler for `GET /files/:id` (api.rs `get_file`). -/
def get_file (store : List File) (dbErr : Option String)
    (idStr : String) : Resp FileResponse :=
  match parseObjectId idStr with
  | none => .badRequest
  | some oid =>
    match dbErr with
    | some e => .serverError e
    | none =>
      match store.find? (fileVisible oid) with
      | some f =>
        .success 200
          { file := f,
            download_url := "/api/v1/files/" ++ idStr ++ "/download" }
      | none => .notFound "File not found"

/-- Filter built field-by-field by `list_files`: `{ "deleted_at": null }`
plus optional `workspace_id` / `channel_id` equality (the `uploaded_by` and
`mime_type` query fields are accepted but never used). -/
def fileListFilter (q : FileQueryParams) (f : File) : Bool :=
  f.deleted_at == none
    && (match q.workspace_id with | some w => f.workspace_id == w | none => true)
    && (match q.channel_id with | some c => f.channel_id == some c | none => true)

/-- Handler for `GET /files` (api.rs `list_files`).  `findErr` models `collection.find`
failing, `collectErr` the cursor's `try_collect` (absorbed by
`unwrap_or_default()`), `countErr` the `count_documents` call (absorbed by
`unwrap_or(0)`). -/
def list_files (store : List File)
    (findErr collectErr countErr : Option String)
    (q : FileQueryParams) : Resp FilesResponse :=
  let limit := effectiveLimit q.limit
  match findErr with
  | some e => .serverError e
  | none =>
    let files : List File :=
      match collectErr with
      | some _ => []
      | none =>
        (List.insertionSort fileDesc (store.filter (fileListFilter q))).take
          limit.toNat
    let total : Nat :=
      match countErr with
      | some _ => 0
      | none => (store.filter (fileListFilter q)).length
    .success 200 { files := files, total := total }

/-- The `$set` document `deleted_at: now` of `delete_file`. -/
def applyFileDelete (now : Nat) (f : File) : File :=
  { f with deleted_at := some now }

/-- Handler for `DELETE /files/:id` (api.rs `delete_file`); filter is
`{ "_id": object_id }` only, response 204 regardless of match count. -/
def delete_file (store : List File) (dbErr : Option String) (now : Nat)
    (idStr : String) : Resp Unit × List File :=
  match parseObjectId idStr with
  | none => (.badRequest, store)
  | some oid =>
    match dbErr with
    | some e => (.serverError e, store)
    | none =>
      (.success 204 (),
       updateOne (fun f => f.id == some oid) (applyFileDelete now) store)

/-- Handler for `GET /files/:id/download` (api.rs `download_file`): `find_one` by
`{ "_id": object_id }` with **no** `deleted_at` condition; on a hit, a 307
redirect whose Location is built from the bucket and the stored
`storage_key`. -/
def download_file (bucket : String) (store : List File)
    (dbErr : Option String) (idStr : String) : Resp String :=
  match parseObjectId idStr with
  | none => .badRequest
  | some oid =>
    match dbErr with
    | some e => .serverError e
    | none =>
      match store.find? (fun f => f.id == some oid) with
      | some f =>
        .success 307 ("https://" ++ bucket ++ ".s3.amazonaws.com/" ++ f.storage_key)
      | none => .notFound "File not found"

/-- The `$set` document `is_public: true` of `share_file`. -/
def applyShare (f : File) : File :=
  { f with is_public := true }

/-- Handler for `POST /files/:id/share` (api.rs `share_file`). -/
def share_file (store : List File) (dbErr : Option String)
    (idStr : String) : Resp String × List File :=
  match parseObjectId idStr with
  | none => (.badRequest, store)
  | some oid =>
    match dbErr with
    | some e => (.serverError e, store)
    | none =>
      (.success 200 ("/api/v1/files/" ++ idStr ++ "/download"),
       updateOne (fun f => f.id == some oid) applyShare store)

/-! ## Operation step functions (for lifecycle invariants) -/

/-- The message-service operations that write to the collection. -/
inductive MsgOp where
  | update (idStr : String) (body : UpdateMessageRequest)
  | delete (idStr : String)
  | addReaction (idStr : String) (body : AddReactionRequest)
  | removeReaction (idStr : String) (emoji : String)
  | pin (idStr : String)
  | unpin (idStr : String)
  deriving Repr, DecidableEq

/-- Collection state after one message-service operation. -/
def msgStep (now : Nat) (dbErr : Option String) (op : MsgOp)
    (store : List Message) : List Message :=
  match op with
  | .update idStr body => (update_message store dbErr now idStr body).2
  | .delete idStr => (delete_message store dbErr now idStr).2
  | .addReaction idStr body => (add_reaction store dbErr idStr body).2
  | .removeReaction idStr emoji => (remove_reaction store dbErr idStr emoji).2
  | .pin idStr => (pin_message store dbErr idStr).2
  | .unpin idStr => (unpin_message store dbErr idStr).2

/-- The file-service operations that write to the collection. -/
inductive FileOp where
  | delete (idStr : String)
  | share (idStr : String)
  deriving Repr, DecidableEq

/-- Collection state after one file-service operation. -/
def fileStep (now : Nat) (dbErr : Option String) (op : FileOp)
    (store : List File) : List File :=
  match op with
  | .delete idStr => (delete_file store dbErr now idStr).2
  | .share idStr => (share_file store dbErr idStr).2

/-! ## Generic lemmas about the embedded database primitives -/

theorem updateOne_length {α : Type} (p : α → Bool) (f : α → α) :
    ∀ l : List α, (updateOne p f l).length = l.length
  | [] => rfl
  | x :: xs => by
    cases hx : p x <;> simp [updateOne, hx, updateOne_length p f xs]

/-- The `update_one` embedding acts pointwise: position `i` keeps its document, either
unchanged or passed through `f` (related by any `R` that `f` respects). -/
theorem updateOne_getElem? {α : Type} (p : α → Bool) (f : α → α)
    (R : α → α → Prop) (hrefl : ∀ a, R a a) (hf : ∀ a, R a (f a)) :
    ∀ (l : List α) (i : Nat) (a : α), l[i]? = some a →
      ∃ b, (updateOne p f l)[i]? = some b ∧ R a b
  | [], i, a, h => by simp at h
  | x :: xs, 0, a, h => by
    rw [List.getElem?_cons_zero] at h
    have hxa : x = a := by injection h
    cases hx : p x
    · exact ⟨x, by simp [updateOne, hx], by rw [← hxa]; exact hrefl x⟩
    · exact ⟨f x, by simp [updateOne, hx], by rw [← hxa]; exact hf x⟩
  | x :: xs, i + 1, a, h => by
    rw [List.getElem?_cons_succ] at h
    cases hx : p x
    · obtain ⟨b, hb, hR⟩ := updateOne_getElem? p f R hrefl hf xs i a h
      exact ⟨b, by simp [updateOne, hx, hb], hR⟩
    · exact ⟨a, by simp [updateOne, hx, h], hrefl a⟩

/-- If `find?` located a document, then after `update_one` with the same
filter (and `f` preserving the filter) `find?` locates its image. -/
theorem find?_updateOne {α : Type} (p : α → Bool) (f : α → α)
    (hp : ∀ a, p a = true → p (f a) = true) :
    ∀ (l : List α) (d : α), l.find? p = some d →
      (updateOne p f l).find? p = some (f d)
  | [], d, h => by simp at h
  | x :: xs, d, h => by
    cases hx : p x
    · rw [List.find?_cons_of_neg xs (show ¬p x = true by simp [hx])] at h
      rw [updateOne, if_neg (by simp [hx]),
        List.find?_cons_of_neg _ (show ¬p x = true by simp [hx])]
      exact find?_updateOne p f hp xs d h
    · rw [List.find?_cons_of_pos xs hx] at h
      have hxd : x = d := by injection h
      rw [updateOne, if_pos hx,
        List.find?_cons_of_pos _ (hp _ hx), hxd]

/-- With at most one filter match in the collection, every document of the
updated collection is either an untouched non-match of the original or the
image under `f` of an original match. -/
theorem mem_updateOne {α : Type} {p : α → Bool} {f : α → α} :
    ∀ l : List α, l.countP p ≤ 1 → ∀ x ∈ updateOne p f l,
      (x ∈ l ∧ p x = false) ∨ ∃ y, y ∈ l ∧ p y = true ∧ x = f y
  | [], _, x, hx => by simp [updateOne] at hx
  | a :: xs, hcount, x, hx => by
    cases ha : p a
    · rw [updateOne, if_neg (by simp [ha])] at hx
      rcases List.mem_cons.mp hx with hxa | hxs
      · exact Or.inl ⟨by simp [hxa], hxa ▸ ha⟩
      · have hc' : xs.countP p ≤ 1 := by
          have := hcount
          rw [List.countP_cons] at this
          omega
        rcases mem_updateOne xs hc' x hxs with ⟨hmem, hpx⟩ | ⟨y, hy, hpy, hxy⟩
        · exact Or.inl ⟨List.mem_cons_of_mem a hmem, hpx⟩
        · exact Or.inr ⟨y, List.mem_cons_of_mem a hy, hpy, hxy⟩
    · rw [updateOne, if_pos ha] at hx
      rcases List.mem_cons.mp hx with hxa | hxs
      · exact Or.inr ⟨a, List.mem_cons_self a xs, ha, hxa⟩
      · have hzero : xs.countP p = 0 := by
          have := hcount
          rw [List.countP_cons, if_pos ha] at this
          omega
        have : ∀ z ∈ xs, ¬p z := List.countP_eq_zero.mp hzero
        exact Or.inl ⟨List.mem_cons_of_mem a hxs,
          Bool.eq_false_iff.mpr (this x hxs)⟩

/-- Every record of a returned page (`filter`, stable sort, `take limit`)
comes from the collection and satisfies the filter. -/
theorem mem_page {α : Type} {r : α → α → Prop} [DecidableRel r]
    {l : List α} {p : α → Bool} {k : Nat} {x : α}
    (hx : x ∈ (List.insertionSort r (l.filter p)).take k) :
    x ∈ l ∧ p x = true := by
  have h1 : x ∈ List.insertionSort r (l.filter p) := List.take_subset k _ hx
  have h2 : x ∈ l.filter p := (List.perm_insertionSort r _).subset h1
  simpa using List.mem_filter.mp h2

/-- A returned page is sorted in the query's sort order. -/
theorem sorted_page {α : Type} (r : α → α → Prop) [DecidableRel r]
    [IsTotal α r] [IsTrans α r] (l : List α) (k : Nat) :
    List.Pairwise r ((List.insertionSort r l).take k) :=
  List.Pairwise.sublist (List.take_sublist k _) (List.sorted_insertionSort r l)

/-! ## Concrete fixtures for witnesses and counterexamples -/

/-- A well-formed 24-hex-character ObjectId string. -/
def oidA : String := "0123456789abcdef01234567"

/-- A second, distinct well-formed ObjectId string. -/
def oidB : String := "89abcdef0123456789abcdef"

/-- A concrete message document as stored in the collection. -/
def sampleMsg : Message :=
  { id := some oidA, channel_id := "c1", user_id := "u1", content := "hi",
    thread_id := none, parent_message_id := none, message_type := .text,
    attachments := [], mentions := [], reactions := [], edited_at := none,
    deleted_at := none, is_pinned := false, created_at := 5, updated_at := 5 }

/-- A concrete file document as stored in the collection. -/
def sampleFile : File :=
  { id := some oidA, name := "file_x", original_name := "uploaded_file",
    mime_type := "application/octet-stream", size := 0,
    storage_key := "files/w1/key1", url := "", thumbnail_url := none,
    workspace_id := "w1", channel_id := none, uploaded_by := "u1",
    checksum := "",
    metadata := { width := none, height := none, duration := none, pages := none },
    is_public := false, deleted_at := none, created_at := 5, updated_at := 5 }

/-- An all-`none` file query (no filters, no limit). -/
def emptyFileQuery : FileQueryParams :=
  { workspace_id := none, channel_id := none, uploaded_by := none,
    mime_type := none, limit := none }

/-- An all-`none` message query (no filters, no limit). -/
def emptyMsgQuery : MessageQueryParams :=
  { channel_id := none, user_id := none, before := none, after := none,
    limit := none }

/-! ## C1 -/

/-- C1: after `delete_file` soft-deletes a record, `get_file` on the same
well-formed id answers 404 (its `find_one` keeps the `deleted_at: null`
condition), `list_files` excludes the record, but `download_file` still
finds it (its `find_one` drops the `deleted_at` condition) and answers a
307 redirect whose target is concatenated from the bucket name and the
stored `storage_key`. -/
theorem c1_soft_deleted_hidden_from_get_list_but_downloadable
    (store : List File) (bucket idStr oid : String) (now : Nat) (d : File)
    (q : FileQueryParams)
    (hparse : parseObjectId idStr = some oid)
    (huniq : store.countP (fun f => f.id == some oid) ≤ 1)
    (hd : store.find? (fun f => f.id == some oid) = some d) :
    get_file (delete_file store none now idStr).2 none idStr =
        .notFound "File not found" ∧
    (∀ s resp, list_files (delete_file store none now idStr).2 none none none q =
        .success s resp → ∀ g ∈ resp.files, g.id ≠ some oid) ∧
    download_file bucket (delete_file store none now idStr).2 none idStr =
      .success 307 ("https://" ++ bucket ++ ".s3.amazonaws.com/" ++ d.storage_key) := by
  have hstore : (delete_file store none now idStr).2 =
      updateOne (fun f => f.id == some oid) (applyFileDelete now) store := by
    simp [delete_file, hparse]
  refine ⟨?_, ?_, ?_⟩
  · rw [hstore]
    have hnone : (updateOne (fun f => f.id == some oid) (applyFileDelete now)
        store).find? (fileVisible oid) = none := by
      rw [List.find?_eq_none]
      intro x hx
      rcases mem_updateOne store huniq x hx with ⟨_, hpx⟩ | ⟨y, _, _, rfl⟩
      · simp [fileVisible, hpx]
      · simp [fileVisible, applyFileDelete]
    simp [get_file, hparse, hnone]
  · intro s resp heq g hg hgid
    rw [hstore] at heq
    simp only [list_files] at heq
    cases heq
    have hmem := mem_page hg
    rcases hmem with ⟨hmem', hfilter⟩
    have hdel : g.deleted_at = none := by
      have := hfilter
      simp only [fileListFilter, Bool.and_eq_true, beq_iff_eq] at this
      exact this.1.1
    rcases mem_updateOne store huniq g hmem' with ⟨_, hpg⟩ | ⟨y, _, _, rfl⟩
    · rw [hgid] at hpg
      simp at hpg
    · simp [applyFileDelete] at hdel
  · rw [hstore]
    have hfind := find?_updateOne (fun f => f.id == some oid)
      (applyFileDelete now) (fun a ha => by simpa [applyFileDelete] using ha)
      store d hd
    simp [download_file, hparse, hfind, applyFileDelete]

/-- Witness for C1 at a concrete one-document collection. -/
theorem c1_witness :
    get_file (delete_file [sampleFile] none 7 oidA).2 none oidA =
        .notFound "File not found" ∧
    (∀ s resp, list_files (delete_file [sampleFile] none 7 oidA).2 none none none
        emptyFileQuery = .success s resp → ∀ g ∈ resp.files, g.id ≠ some oidA) ∧
    download_file "quckchat-files" (delete_file [sampleFile] none 7 oidA).2 none oidA =
      .success 307 ("https://" ++ "quckchat-files" ++ ".s3.amazonaws.com/" ++
        sampleFile.storage_key) :=
  c1_soft_deleted_hidden_from_get_list_but_downloadable
    [sampleFile] "quckchat-files" oidA oidA 7 sampleFile emptyFileQuery
    (by decide) (by decide) (by decide)

/-! ## C2 -/

/-- C2 counterexample: the claim says every database-driver error yields
status 500, no storage error being absorbed into a success response.  But
`list_messages` collects the find cursor with `try_collect().await
.unwrap_or_default()`: a driver error at that point (modelled by the
`collectErr` argument) is swallowed and the request answers 200 with an
empty page. -/
theorem c2_counterexample :
    (list_messages [sampleMsg] none (some "driver error") emptyMsgQuery).status
      = 200 := by decide

/-- C2 amended: malformed id yields 400; a well-formed id with no matching
non-deleted record yields 404 on reads; a driver error from the database
call itself yields 500 with the driver message echoed (also on mutations);
but a driver error while collecting the find cursor's results is absorbed
by `unwrap_or_default()` into an empty-page 200 response (and, for
`list_files`, a `count_documents` error is absorbed into `total = 0`). -/
theorem c2_amended_error_mapping
    (store : List Message) (storeF : List File) (dbErr : Option String)
    (idStr oid e : String) (q : MessageQueryParams) (qF : FileQueryParams)
    (now : Nat)
    (hbad : parseObjectId idStr = none)
    (hoid : parseObjectId oid = some oid) :
    get_message store dbErr idStr = .badRequest ∧
    get_message store (some e) oid = .serverError e ∧
    (store.find? (msgVisible oid) = none →
      get_message store none oid = .notFound "Message not found") ∧
    list_messages store (some e) none q = .serverError e ∧
    (update_message store (some e) now oid ⟨none⟩).1 = .serverError e ∧
    (delete_message store (some e) now oid).1 = .serverError e ∧
    (list_messages store none (some e) q).status = 200 ∧
    (∀ s resp, list_files storeF none none (some e) qF = .success s resp →
      resp.total = 0) := by
  refine ⟨?_, ?_, ?_, ?_, ?_, ?_, ?_, ?_⟩
  · simp [get_message, hbad]
  · simp [get_message, hoid]
  · intro hnone
    simp [get_message, hoid, hnone]
  · simp [list_messages]
  · simp [update_message, hoid]
  · simp [delete_message, hoid]
  · simp [list_messages, Resp.status]
  · intro s resp heq
    simp only [list_files] at heq
    cases heq
    rfl

/-- Witness for C2's amended statement at concrete inputs. -/
theorem c2_amended_witness :
    get_message [sampleMsg] none "not-an-id" = .badRequest ∧
    get_message [sampleMsg] (some "boom") oidA = .serverError "boom" ∧
    (List.find? (msgVisible oidA) [sampleMsg] = none →
      get_message [sampleMsg] none oidA = .notFound "Message not found") ∧
    list_messages [sampleMsg] (some "boom") none emptyMsgQuery =
      .serverError "boom" ∧
    (update_message [sampleMsg] (some "boom") 9 oidA ⟨none⟩).1 =
      .serverError "boom" ∧
    (delete_message [sampleMsg] (some "boom") 9 oidA).1 = .serverError "boom" ∧
    (list_messages [sampleMsg] none (some "boom") emptyMsgQuery).status = 200 ∧
    (∀ s resp, list_files [sampleFile] none none (some "boom") emptyFileQuery =
      .success s resp → resp.total = 0) :=
  c2_amended_error_mapping [sampleMsg] [sampleFile] none "not-an-id" oidA
    "boom" emptyMsgQuery emptyFileQuery 9 (by decide) (by decide)

/-! ## C3 -/

/-- C3: for a well-formed id whose document is in the collection,
`update_message` leaves the document with `content` set exactly when the
request supplied one (unchanged otherwise), and in every case stamps both
`updated_at` and `edited_at` to now. -/
theorem c3_update_stamps_timestamps_content_iff_supplied
    (store : List Message) (idStr oid : String) (now : Nat) (d : Message)
    (body : UpdateMessageRequest)
    (hparse : parseObjectId idStr = some oid)
    (hd : store.find? (fun m => m.id == some oid) = some d) :
    (update_message store none now idStr body).2.find? (fun m => m.id == some oid)
        = some (applyMsgUpdate now body.content d) ∧
    (applyMsgUpdate now body.content d).content =
      (match body.content with | some c => c | none => d.content) ∧
    (applyMsgUpdate now body.content d).updated_at = now ∧
    (applyMsgUpdate now body.content d).edited_at = some now := by
  refine ⟨?_, ?_, rfl, rfl⟩
  · have h := find?_updateOne (fun m => m.id == some oid)
      (applyMsgUpdate now body.content)
      (fun a ha => by simpa [applyMsgUpdate] using ha) store d hd
    simp [update_message, hparse, h]
  · cases body.content <;> simp [applyMsgUpdate]

/-- Witness for C3: update with a supplied content and a concrete store. -/
theorem c3_witness :
    (update_message [sampleMsg] none 9 oidA ⟨some "edited"⟩).2.find?
        (fun m => m.id == some oidA)
        = some (applyMsgUpdate 9 (some "edited") sampleMsg) ∧
    (applyMsgUpdate 9 (some "edited") sampleMsg).content =
      (match some "edited" with | some c => c | none => sampleMsg.content) ∧
    (applyMsgUpdate 9 (some "edited") sampleMsg).updated_at = 9 ∧
    (applyMsgUpdate 9 (some "edited") sampleMsg).edited_at = some 9 :=
  c3_update_stamps_timestamps_content_iff_supplied [sampleMsg] oidA oidA 9
    sampleMsg ⟨some "edited"⟩ (by decide) (by decide)

/-! ## C4 -/

/-- C4 counterexample: the claim says every in-place mutation (update,
reaction add/remove, pin/unpin) refreshes `updated_at` to the current
time.  But `pin_message`'s update document is `$set { is_pinned: true }`
only — it does not even receive a clock.  Pinning the sample message
(stored with `updated_at = 5`) leaves `updated_at = 5`; at any request
time other than 5 the claim fails. -/
theorem c4_counterexample :
    (pin_message [sampleMsg] none oidA).2 =
      [{ sampleMsg with is_pinned := true }] ∧
    sampleMsg.updated_at = 5 := by decide

/-- C4 amended: only `update_message` refreshes `updated_at` (to now, on
the matched document); reaction add/remove, pin/unpin (and soft delete)
leave every document's `updated_at` unchanged. -/
theorem c4_amended_only_update_refreshes_updated_at
    (store : List Message) (dbErr : Option String) (now : Nat) (i : Nat)
    (a : Message) (ha : store[i]? = some a) :
    (∀ idStr body, ∃ b,
      (msgStep now dbErr (MsgOp.update idStr body) store)[i]? = some b ∧
        (b = a ∨ b.updated_at = now)) ∧
    (∀ op : MsgOp, (∀ idStr body, op ≠ MsgOp.update idStr body) →
      ∃ b, (msgStep now dbErr op store)[i]? = some b ∧
        b.updated_at = a.updated_at) := by
  constructor
  · intro idStr body
    cases hp : parseObjectId idStr with
    | none => exact ⟨a, by simp [msgStep, update_message, hp, ha], Or.inl rfl⟩
    | some oid =>
      cases dbErr with
      | some e => exact ⟨a, by simp [msgStep, update_message, hp, ha], Or.inl rfl⟩
      | none =>
        obtain ⟨b, hb, hR⟩ := updateOne_getElem? (fun m => m.id == some oid)
          (applyMsgUpdate now body.content)
          (fun x y => y = x ∨ y.updated_at = now)
          (fun _ => Or.inl rfl)
          (fun _ => Or.inr (by simp [applyMsgUpdate])) store i a ha
        exact ⟨b, by simp [msgStep, update_message, hp, hb], hR⟩
  · intro op hop
    have preserve : ∀ (oid : String) (f : Message → Message),
        (∀ x, (f x).updated_at = x.updated_at) →
        ∃ b, (updateOne (fun m => m.id == some oid) f store)[i]? = some b ∧
          b.updated_at = a.updated_at := by
      intro oid f hf
      obtain ⟨b, hb, hR⟩ := updateOne_getElem? (fun m => m.id == some oid) f
        (fun x y => y.updated_at = x.updated_at)
        (fun _ => rfl) (fun x => hf x) store i a ha
      exact ⟨b, hb, hR⟩
    cases op with
    | update idStr body => exact absurd rfl (hop idStr body)
    | delete idStr =>
      cases hp : parseObjectId idStr with
      | none => exact ⟨a, by simp [msgStep, delete_message, hp, ha], rfl⟩
      | some oid =>
        cases dbErr with
        | some e => exact ⟨a, by simp [msgStep, delete_message, hp, ha], rfl⟩
        | none =>
          obtain ⟨b, hb, hub⟩ := preserve oid (applyMsgDelete now)
            (fun x => by simp [applyMsgDelete])
          exact ⟨b, by simp [msgStep, delete_message, hp, hb], hub⟩
    | addReaction idStr body =>
      cases hp : parseObjectId idStr with
      | none => exact ⟨a, by simp [msgStep, add_reaction, hp, ha], rfl⟩
      | some oid =>
        cases dbErr with
        | some e => exact ⟨a, by simp [msgStep, add_reaction, hp, ha], rfl⟩
        | none =>
          obtain ⟨b, hb, hub⟩ := preserve oid (applyAddReaction body)
            (fun x => by simp [applyAddReaction])
          exact ⟨b, by simp [msgStep, add_reaction, hp, hb], hub⟩
    | removeReaction idStr emoji =>
      cases hp : parseObjectId idStr with
      | none => exact ⟨a, by simp [msgStep, remove_reaction, hp, ha], rfl⟩
      | some oid =>
        cases dbErr with
        | some e => exact ⟨a, by simp [msgStep, remove_reaction, hp, ha], rfl⟩
        | none =>
          obtain ⟨b, hb, hub⟩ := preserve oid (applyRemoveReaction emoji)
            (fun x => by simp [applyRemoveReaction])
          exact ⟨b, by simp [msgStep, remove_reaction, hp, hb], hub⟩
    | pin idStr =>
      cases hp : parseObjectId idStr with
      | none => exact ⟨a, by simp [msgStep, pin_message, hp, ha], rfl⟩
      | some oid =>
        cases dbErr with
        | some e => exact ⟨a, by simp [msgStep, pin_message, hp, ha], rfl⟩
        | none =>
          obtain ⟨b, hb, hub⟩ := preserve oid (applyPin true)
            (fun x => by simp [applyPin])
          exact ⟨b, by simp [msgStep, pin_message, hp, hb], hub⟩
    | unpin idStr =>
      cases hp : parseObjectId idStr with
      | none => exact ⟨a, by simp [msgStep, unpin_message, hp, ha], rfl⟩
      | some oid =>
        cases dbErr with
        | some e => exact ⟨a, by simp [msgStep, unpin_message, hp, ha], rfl⟩
        | none =>
          obtain ⟨b, hb, hub⟩ := preserve oid (applyPin false)
            (fun x => by simp [applyPin])
          exact ⟨b, by simp [msgStep, unpin_message, hp, hb], hub⟩

/-- Witness for C4's amended statement at a concrete one-document store. -/
theorem c4_amended_witness :
    (∀ idStr body, ∃ b,
      (msgStep 9 none (MsgOp.update idStr body) [sampleMsg])[0]? = some b ∧
        (b = sampleMsg ∨ b.updated_at = 9)) ∧
    (∀ op : MsgOp, (∀ idStr body, op ≠ MsgOp.update idStr body) →
      ∃ b, (msgStep 9 none op [sampleMsg])[0]? = some b ∧
        b.updated_at = sampleMsg.updated_at) :=
  c4_amended_only_update_refreshes_updated_at [sampleMsg] none 9 0 sampleMsg
    (by decide)

/-! ## C5 -/

/-- C5: a `list_messages` request (the `GET /messages` handler) answers
with `has_more` true iff the returned count equals the effective limit,
and with `cursor` equal to the id of the last returned message (present,
since stored documents carry an id) or absent when the page is empty. -/
theorem c5_list_has_more_iff_full_page_and_cursor_is_last_id
    (store : List Message) (q : MessageQueryParams)
    (hwf : ∀ m ∈ store, m.id ≠ none) :
    ∃ resp, list_messages store none none q = .success 200 resp ∧
      (resp.has_more = true ↔
        (resp.messages.length : Int) = effectiveLimit q.limit) ∧
      (resp.messages = [] → resp.cursor = none) ∧
      ∀ m, resp.messages.getLast? = some m →
        resp.cursor = m.id ∧ m.id ≠ none := by
  have hq : list_messages store none none q = .success 200
      (mkMessagesPage (effectiveLimit q.limit)
        ((List.insertionSort msgDesc (store.filter (msgListFilter q))).take
          (effectiveLimit q.limit).toNat)) := rfl
  refine ⟨_, hq, ?_, ?_, ?_⟩
  · simp [mkMessagesPage]
  · intro h
    simp only [mkMessagesPage] at h
    simp [mkMessagesPage, h]
  · intro m hm
    simp only [mkMessagesPage] at hm
    refine ⟨by simp [mkMessagesPage, hm], ?_⟩
    have hmem : m ∈ (List.insertionSort msgDesc
        (store.filter (msgListFilter q))).take (effectiveLimit q.limit).toNat := by
      rw [List.getLast?_eq_head?_reverse] at hm
      have := List.mem_of_mem_head? hm
      simpa using this
    exact hwf m (mem_page hmem).1

/-- Witness for C5 at a concrete store with a limit of 1. -/
theorem c5_witness :
    ∃ resp, list_messages [sampleMsg] none none
        { channel_id := none, user_id := none, before := none, after := none,
          limit := some 1 } = .success 200 resp ∧
      (resp.has_more = true ↔ (resp.messages.length : Int) =
        effectiveLimit (some 1)) ∧
      (resp.messages = [] → resp.cursor = none) ∧
      ∀ m, resp.messages.getLast? = some m →
        resp.cursor = m.id ∧ m.id ≠ none :=
  c5_list_has_more_iff_full_page_and_cursor_is_last_id [sampleMsg]
    { channel_id := none, user_id := none, before := none, after := none,
      limit := some 1 } (by decide)

/-! ## C6 -/

/-- C6: `get_thread_messages` returns a page in non-decreasing
`created_at` order (`msgAsc`) with a cursor that is always absent, and
`get_channel_messages` returns a page in non-increasing `created_at`
order (`msgDesc`) containing no record whose `thread_id` is set. -/
theorem c6_thread_asc_cursorless_channel_desc_toplevel
    (store : List Message) (channelId threadId : String)
    (q : MessageQueryParams) :
    (∃ resp, get_thread_messages store none none threadId q =
        .success 200 resp ∧
      resp.messages.Pairwise msgAsc ∧ resp.cursor = none) ∧
    (∃ resp, get_channel_messages store none none channelId q =
        .success 200 resp ∧
      resp.messages.Pairwise msgDesc ∧
      ∀ m ∈ resp.messages, m.thread_id = none) := by
  constructor
  · exact ⟨_, rfl, sorted_page msgAsc _ _, rfl⟩
  · refine ⟨_, rfl, sorted_page msgDesc _ _, ?_⟩
    intro m hm
    have h := (mem_page (show m ∈ (List.insertionSort msgDesc (store.filter
      (fun m => m.channel_id == channelId && m.deleted_at == none
        && m.thread_id == none))).take (effectiveLimit q.limit).toNat from hm)).2
    simp only [Bool.and_eq_true, beq_iff_eq] at h
    exact h.2

/-! ## C7 -/

/-- C7: `remove_reaction(id, emoji)` pulls from the matched document every
reactions entry whose `emoji` field equals the given emoji — whatever
`user_ids` those entries carry — leaving zero entries for that emoji. -/
theorem c7_remove_reaction_is_emoji_level
    (store : List Message) (idStr oid emoji : String) (d : Message)
    (hparse : parseObjectId idStr = some oid)
    (hd : store.find? (fun m => m.id == some oid) = some d) :
    (remove_reaction store none idStr emoji).2.find?
        (fun m => m.id == some oid) = some (applyRemoveReaction emoji d) ∧
    (applyRemoveReaction emoji d).reactions =
      d.reactions.filter (fun r => r.emoji != emoji) ∧
    ∀ r ∈ (applyRemoveReaction emoji d).reactions, r.emoji ≠ emoji := by
  refine ⟨?_, rfl, ?_⟩
  · have h := find?_updateOne (fun m => m.id == some oid)
      (applyRemoveReaction emoji)
      (fun a ha => by simpa [applyRemoveReaction] using ha) store d hd
    simp [remove_reaction, hparse, h]
  · intro r hr
    have := List.mem_filter.mp hr
    simpa using this.2

/-- A message carrying two entries for the same emoji from different users
plus one entry for another emoji — the C7 scenario. -/
def sampleMsgReactions : Message :=
  { sampleMsg with reactions :=
      [ { emoji := "thumbsup", user_ids := ["user_a"], count := 1 },
        { emoji := "thumbsup", user_ids := ["user_b"], count := 1 },
        { emoji := "heart", user_ids := ["user_a"], count := 1 } ] }

/-- Witness for C7: both users' `thumbsup` entries are pulled at once. -/
theorem c7_witness :
    (remove_reaction [sampleMsgReactions] none oidA "thumbsup").2.find?
        (fun m => m.id == some oidA)
        = some (applyRemoveReaction "thumbsup" sampleMsgReactions) ∧
    (applyRemoveReaction "thumbsup" sampleMsgReactions).reactions =
      sampleMsgReactions.reactions.filter (fun r => r.emoji != "thumbsup") ∧
    ∀ r ∈ (applyRemoveReaction "thumbsup" sampleMsgReactions).reactions,
      r.emoji ≠ "thumbsup" :=
  c7_remove_reaction_is_emoji_level [sampleMsgReactions] oidA oidA "thumbsup"
    sampleMsgReactions (by decide) (by decide)

/-! ## C8 -/

/-- C8: on every successful list response (files or messages), the number
of returned records never exceeds `min(requested_limit, 100)` for a
supplied (non-negative) limit, and never exceeds the default 50 when no
limit is supplied. -/
theorem c8_list_limit_capped_at_100_default_50
    (storeM : List Message) (storeF : List File)
    (feM ceM feF ceF keF : Option String)
    (qM : MessageQueryParams) (qF : FileQueryParams) (l : Int) (hl : 0 ≤ l) :
    (∀ s resp, qM.limit = some l →
      list_messages storeM feM ceM qM = .success s resp →
      (resp.messages.length : Int) ≤ min l 100) ∧
    (∀ s resp, qM.limit = none →
      list_messages storeM feM ceM qM = .success s resp →
      resp.messages.length ≤ 50) ∧
    (∀ s resp, qF.limit = some l →
      list_files storeF feF ceF keF qF = .success s resp →
      (resp.files.length : Int) ≤ min l 100) ∧
    (∀ s resp, qF.limit = none →
      list_files storeF feF ceF keF qF = .success s resp →
      resp.files.length ≤ 50) := by
  refine ⟨?_, ?_, ?_, ?_⟩
  · intro s resp hq heq
    cases feM with
    | some e => simp [list_messages] at heq
    | none =>
      simp only [list_messages] at heq
      cases heq
      cases ceM with
      | some e => simp [mkMessagesPage]; omega
      | none =>
        have h1 := List.length_take_le (effectiveLimit qM.limit).toNat
          (List.insertionSort msgDesc (storeM.filter (msgListFilter qM)))
        have h2 : effectiveLimit qM.limit = min l 100 := by
          rw [hq]; rfl
        simp only [mkMessagesPage]
        omega
  · intro s resp hq heq
    cases feM with
    | some e => simp [list_messages] at heq
    | none =>
      simp only [list_messages] at heq
      cases heq
      cases ceM with
      | some e => simp [mkMessagesPage]
      | none =>
        have h1 := List.length_take_le (effectiveLimit qM.limit).toNat
          (List.insertionSort msgDesc (storeM.filter (msgListFilter qM)))
        have h2 : effectiveLimit qM.limit = 50 := by
          rw [hq]; rfl
        simp only [mkMessagesPage]
        omega
  · intro s resp hq heq
    cases feF with
    | some e => simp [list_files] at heq
    | none =>
      simp only [list_files] at heq
      cases heq
      cases ceF with
      | some e => simp [mkMessagesPage]; omega
      | none =>
        have h1 := List.length_take_le (effectiveLimit qF.limit).toNat
          (List.insertionSort fileDesc (storeF.filter (fileListFilter qF)))
        have h2 : effectiveLimit qF.limit = min l 100 := by
          rw [hq]; rfl
        simp only
        omega
  · intro s resp hq heq
    cases feF with
    | some e => simp [list_files] at heq
    | none =>
      simp only [list_files] at heq
      cases heq
      cases ceF with
      | some e => simp [mkMessagesPage]
      | none =>
        have h1 := List.length_take_le (effectiveLimit qF.limit).toNat
          (List.insertionSort fileDesc (storeF.filter (fileListFilter qF)))
        have h2 : effectiveLimit qF.limit = 50 := by
          rw [hq]; rfl
        simp only
        omega

/-- Witness for C8 with a requested limit of 3. -/
theorem c8_witness :
    (∀ s resp, (some (3 : Int)) = some (3 : Int) →
      list_messages [sampleMsg] none none
        { channel_id := none, user_id := none, before := none, after := none,
          limit := some 3 } = .success s resp →
      (resp.messages.length : Int) ≤ min 3 100) ∧
    (∀ s resp, (some (3 : Int)) = none →
      list_messages [sampleMsg] none none
        { channel_id := none, user_id := none, before := none, after := none,
          limit := some 3 } = .success s resp →
      resp.messages.length ≤ 50) ∧
    (∀ s resp, (some (3 : Int)) = some (3 : Int) →
      list_files [sampleFile] none none none
        { workspace_id := none, channel_id := none, uploaded_by := none,
          mime_type := none, limit := some 3 } = .success s resp →
      (resp.files.length : Int) ≤ min 3 100) ∧
    (∀ s resp, (some (3 : Int)) = none →
      list_files [sampleFile] none none none
        { workspace_id := none, channel_id := none, uploaded_by := none,
          mime_type := none, limit := some 3 } = .success s resp →
      resp.files.length ≤ 50) :=
  c8_list_limit_capped_at_100_default_50 [sampleMsg] [sampleFile]
    none none none none none
    { channel_id := none, user_id := none, before := none, after := none,
      limit := some 3 }
    { workspace_id := none, channel_id := none, uploaded_by := none,
      mime_type := none, limit := some 3 } 3 (by decide)

/-! ## C9 -/

/-- A message-service operation never clears `deleted_at` at any position:
each write is an `update_one` whose `$set`/`$addToSet`/`$pull` document
either leaves `deleted_at` alone or sets it to `some now`. -/
theorem msgStep_keeps_deleted_at_set (now : Nat) (dbErr : Option String)
    (op : MsgOp) (store : List Message) (i : Nat) (a : Message)
    (ha : store[i]? = some a) (hdel : a.deleted_at.isSome = true) :
    ∃ b, (msgStep now dbErr op store)[i]? = some b ∧
      b.deleted_at.isSome = true := by
  have lift : ∀ (oid : String) (f : Message → Message),
      (∀ x, x.deleted_at.isSome = true → (f x).deleted_at.isSome = true) →
      ∃ b, (updateOne (fun m => m.id == some oid) f store)[i]? = some b ∧
        b.deleted_at.isSome = true := by
    intro oid f hf
    obtain ⟨b, hb, hR⟩ := updateOne_getElem? (fun m => m.id == some oid) f
      (fun x y => x.deleted_at.isSome = true → y.deleted_at.isSome = true)
      (fun _ h => h) hf store i a ha
    exact ⟨b, hb, hR hdel⟩
  cases op with
  | update idStr body =>
    cases hp : parseObjectId idStr with
    | none => exact ⟨a, by simp [msgStep, update_message, hp, ha], hdel⟩
    | some oid =>
      cases dbErr with
      | some e => exact ⟨a, by simp [msgStep, update_message, hp, ha], hdel⟩
      | none =>
        obtain ⟨b, hb, hbd⟩ := lift oid (applyMsgUpdate now body.content)
          (fun x h => by simpa [applyMsgUpdate] using h)
        exact ⟨b, by simp [msgStep, update_message, hp, hb], hbd⟩
  | delete idStr =>
    cases hp : parseObjectId idStr with
    | none => exact ⟨a, by simp [msgStep, delete_message, hp, ha], hdel⟩
    | some oid =>
      cases dbErr with
      | some e => exact ⟨a, by simp [msgStep, delete_message, hp, ha], hdel⟩
      | none =>
        obtain ⟨b, hb, hbd⟩ := lift oid (applyMsgDelete now)
          (fun x _ => by simp [applyMsgDelete])
        exact ⟨b, by simp [msgStep, delete_message, hp, hb], hbd⟩
  | addReaction idStr body =>
    cases hp : parseObjectId idStr with
    | none => exact ⟨a, by simp [msgStep, add_reaction, hp, ha], hdel⟩
    | some oid =>
      cases dbErr with
      | some e => exact ⟨a, by simp [msgStep, add_reaction, hp, ha], hdel⟩
      | none =>
        obtain ⟨b, hb, hbd⟩ := lift oid (applyAddReaction body)
          (fun x h => by simpa [applyAddReaction] using h)
        exact ⟨b, by simp [msgStep, add_reaction, hp, hb], hbd⟩
  | removeReaction idStr emoji =>
    cases hp : parseObjectId idStr with
    | none => exact ⟨a, by simp [msgStep, remove_reaction, hp, ha], hdel⟩
    | some oid =>
      cases dbErr with
      | some e => exact ⟨a, by simp [msgStep, remove_reaction, hp, ha], hdel⟩
      | none =>
        obtain ⟨b, hb, hbd⟩ := lift oid (applyRemoveReaction emoji)
          (fun x h => by simpa [applyRemoveReaction] using h)
        exact ⟨b, by simp [msgStep, remove_reaction, hp, hb], hbd⟩
  | pin idStr =>
    cases hp : parseObjectId idStr with
    | none => exact ⟨a, by simp [msgStep, pin_message, hp, ha], hdel⟩
    | some oid =>
      cases dbErr with
      | some e => exact ⟨a, by simp [msgStep, pin_message, hp, ha], hdel⟩
      | none =>
        obtain ⟨b, hb, hbd⟩ := lift oid (applyPin true)
          (fun x h => by simpa [applyPin] using h)
        exact ⟨b, by simp [msgStep, pin_message, hp, hb], hbd⟩
  | unpin idStr =>
    cases hp : parseObjectId idStr with
    | none => exact ⟨a, by simp [msgStep, unpin_message, hp, ha], hdel⟩
    | some oid =>
      cases dbErr with
      | some e => exact ⟨a, by simp [msgStep, unpin_message, hp, ha], hdel⟩
      | none =>
        obtain ⟨b, hb, hbd⟩ := lift oid (applyPin false)
          (fun x h => by simpa [applyPin] using h)
        exact ⟨b, by simp [msgStep, unpin_message, hp, hb], hbd⟩

/-- A file-service operation never clears `deleted_at` at any position. -/
theorem fileStep_keeps_deleted_at_set (now : Nat) (dbErr : Option String)
    (op : FileOp) (store : List File) (i : Nat) (a : File)
    (ha : store[i]? = some a) (hdel : a.deleted_at.isSome = true) :
    ∃ b, (fileStep now dbErr op store)[i]? = some b ∧
      b.deleted_at.isSome = true := by
  have lift : ∀ (oid : String) (f : File → File),
      (∀ x, x.deleted_at.isSome = true → (f x).deleted_at.isSome = true) →
      ∃ b, (updateOne (fun g => g.id == some oid) f store)[i]? = some b ∧
        b.deleted_at.isSome = true := by
    intro oid f hf
    obtain ⟨b, hb, hR⟩ := updateOne_getElem? (fun g => g.id == some oid) f
      (fun x y => x.deleted_at.isSome = true → y.deleted_at.isSome = true)
      (fun _ h => h) hf store i a ha
    exact ⟨b, hb, hR hdel⟩
  cases op with
  | delete idStr =>
    cases hp : parseObjectId idStr with
    | none => exact ⟨a, by simp [fileStep, delete_file, hp, ha], hdel⟩
    | some oid =>
      cases dbErr with
      | some e => exact ⟨a, by simp [fileStep, delete_file, hp, ha], hdel⟩
      | none =>
        obtain ⟨b, hb, hbd⟩ := lift oid (applyFileDelete now)
          (fun x _ => by simp [applyFileDelete])
        exact ⟨b, by simp [fileStep, delete_file, hp, hb], hbd⟩
  | share idStr =>
    cases hp : parseObjectId idStr with
    | none => exact ⟨a, by simp [fileStep, share_file, hp, ha], hdel⟩
    | some oid =>
      cases dbErr with
      | some e => exact ⟨a, by simp [fileStep, share_file, hp, ha], hdel⟩
      | none =>
        obtain ⟨b, hb, hbd⟩ := lift oid applyShare
          (fun x h => by simpa [applyShare] using h)
        exact ⟨b, by simp [fileStep, share_file, hp, hb], hbd⟩

/-- C9: `deleted_at` is write-once for both entity types — once a stored
document has it set, no subsequent operation (update, reaction add/remove,
pin/unpin, share, or a repeated delete) ever returns it to absent. -/
theorem c9_deleted_at_write_once
    (now : Nat) (dbErr : Option String) (i : Nat)
    (opM : MsgOp) (storeM : List Message) (a : Message)
    (opF : FileOp) (storeF : List File) (c : File)
    (haM : storeM[i]? = some a) (haF : storeF[i]? = some c)
    (hdelM : a.deleted_at.isSome = true) (hdelF : c.deleted_at.isSome = true) :
    (∃ b, (msgStep now dbErr opM storeM)[i]? = some b ∧
      b.deleted_at.isSome = true) ∧
    (∃ b, (fileStep now dbErr opF storeF)[i]? = some b ∧
      b.deleted_at.isSome = true) :=
  ⟨msgStep_keeps_deleted_at_set now dbErr opM storeM i a haM hdelM,
   fileStep_keeps_deleted_at_set now dbErr opF storeF i c haF hdelF⟩

/-- An already soft-deleted message, for the C9/C10 witnesses. -/
def deletedMsg : Message := { sampleMsg with deleted_at := some 3 }

/-- An already soft-deleted file, for the C9 witness. -/
def deletedFile : File := { sampleFile with deleted_at := some 3 }

/-- Witness for C9: a second delete on already-deleted documents leaves
`deleted_at` set. -/
theorem c9_witness :
    (∃ b, (msgStep 9 none (MsgOp.delete oidA) [deletedMsg])[0]? = some b ∧
      b.deleted_at.isSome = true) ∧
    (∃ b, (fileStep 9 none (FileOp.delete oidA) [deletedFile])[0]? = some b ∧
      b.deleted_at.isSome = true) :=
  c9_deleted_at_write_once 9 none 0 (MsgOp.delete oidA) [deletedMsg]
    deletedMsg (FileOp.delete oidA) [deletedFile] deletedFile
    (by decide) (by decide) (by decide) (by decide)

/-! ## C10 -/

/-- C10: `delete` (file or message) filters on `_id` alone with no
existence check and no `deleted_at` condition, answering 204 whatever the
collection contains (so deleting a nonexistent id succeeds); a repeated
delete succeeds and re-stamps `deleted_at` with the later time; and the
same `_id`-only targeting lets `update_message` modify an already
soft-deleted document. -/
theorem c10_delete_id_only_idempotent_and_permissive
    (storeF : List File) (storeM : List Message) (idStr oid : String)
    (t1 t2 now : Nat) (d : Message) (body : UpdateMessageRequest)
    (hparse : parseObjectId idStr = some oid) :
    (delete_file storeF none now idStr).1 = Resp.success 204 () ∧
    (delete_message storeM none now idStr).1 = Resp.success 204 () ∧
    (storeM.find? (fun m => m.id == some oid) = some d →
      (delete_message (delete_message storeM none t1 idStr).2 none t2
          idStr).2.find? (fun m => m.id == some oid) =
        some (applyMsgDelete t2 (applyMsgDelete t1 d)) ∧
      (applyMsgDelete t2 (applyMsgDelete t1 d)).deleted_at = some t2) ∧
    (storeM.find? (fun m => m.id == some oid) = some d →
      d.deleted_at = some t1 →
      (update_message storeM none now idStr body).2.find?
          (fun m => m.id == some oid) =
        some (applyMsgUpdate now body.content d) ∧
      (applyMsgUpdate now body.content d).deleted_at = some t1) := by
  refine ⟨by simp [delete_file, hparse], by simp [delete_message, hparse],
    ?_, ?_⟩
  · intro hd
    have hid : ∀ x : Message, (x.id == some oid) = true →
        ((applyMsgDelete t1 x).id == some oid) = true :=
      fun x hx => by simpa [applyMsgDelete] using hx
    have h1 := find?_updateOne (fun m => m.id == some oid)
      (applyMsgDelete t1) hid storeM d hd
    have h2 := find?_updateOne (fun m => m.id == some oid)
      (applyMsgDelete t2)
      (fun x hx => by simpa [applyMsgDelete] using hx)
      (updateOne (fun m => m.id == some oid) (applyMsgDelete t1) storeM)
      (applyMsgDelete t1 d) h1
    exact ⟨by simp [delete_message, hparse, h2], rfl⟩
  · intro hd hdel
    have h := find?_updateOne (fun m => m.id == some oid)
      (applyMsgUpdate now body.content)
      (fun x hx => by simpa [applyMsgUpdate] using hx) storeM d hd
    exact ⟨by simp [update_message, hparse, h],
      by simp [applyMsgUpdate, hdel]⟩

/-- Witness for C10: deleting against an empty collection answers 204, and
deleting twice against a one-document collection re-stamps. -/
theorem c10_witness :
    (delete_file ([] : List File) none 9 oidA).1 = Resp.success 204 () ∧
    (delete_message [sampleMsg] none 9 oidA).1 = Resp.success 204 () ∧
    (List.find? (fun m => m.id == some oidA) [sampleMsg] = some sampleMsg →
      (delete_message (delete_message [sampleMsg] none 3 oidA).2 none 4
          oidA).2.find? (fun m => m.id == some oidA) =
        some (applyMsgDelete 4 (applyMsgDelete 3 sampleMsg)) ∧
      (applyMsgDelete 4 (applyMsgDelete 3 sampleMsg)).deleted_at = some 4) ∧
    (List.find? (fun m => m.id == some oidA) [sampleMsg] = some sampleMsg →
      sampleMsg.deleted_at = some 3 →
      (update_message [sampleMsg] none 9 oidA ⟨some "x"⟩).2.find?
          (fun m => m.id == some oidA) =
        some (applyMsgUpdate 9 (some "x") sampleMsg) ∧
      (applyMsgUpdate 9 (some "x") sampleMsg).deleted_at = some 3) :=
  c10_delete_id_only_idempotent_and_permissive [] [sampleMsg] oidA oidA
    3 4 9 sampleMsg ⟨some "x"⟩ (by decide)

end QuckApp
